import Mathlib

/-!
Verification development for the food-access mapping program (`main.py`).

The program loads a census-tract shapefile, left-joins a food-access CSV
onto it by tract id, prints a match-rate percentage, classifies tracts as
"low access", aggregates by county, and renders five maps.

Shallow embedding conventions:
* a table is a `List Row`; a nullable cell is an `Option` value (a `none`
  stands for pandas `NaN`);
* arithmetic on cells follows pandas/numpy float semantics, idealised to
  exact rationals: a division with a `none` operand is `NaN`, a division of
  a nonzero value by zero is `±∞`, and `0 / 0` is `NaN`.  The extended
  value type `PVal` records these outcomes;
* comparisons against `NaN` are `false`, `+∞ ≥ c` is `true` for a rational
  threshold `c`;
* rendering writes image files; only each routine's effect on the input
  table is modelled (the file output is outside the embedding).
-/

namespace Mapping

/-- Extended value produced by a pandas column division: a finite rational,
`+∞`, `-∞`, or `NaN`. -/
inductive PVal where
  | nan : PVal
  | pinf : PVal
  | ninf : PVal
  | num : ℚ → PVal
deriving DecidableEq, Repr

/-- Elementwise division of two nullable cells, with numpy semantics:
any `none` (NaN) operand gives NaN; division by zero gives `+∞`, `-∞`
or NaN according to the sign of the numerator. -/
def pdiv (x y : Option ℚ) : PVal :=
  match x, y with
  | some a, some b =>
      if b = 0 then
        if 0 < a then .pinf else if a < 0 then .ninf else .nan
      else .num (a / b)
  | _, _ => .nan

/-- `v >= c` for an extended value and a finite rational threshold:
NaN compares `false`, `+∞` compares `true`. -/
def pge (v : PVal) (c : ℚ) : Bool :=
  match v with
  | .nan => false
  | .pinf => true
  | .ninf => false
  | .num q => decide (c ≤ q)

/-- `x >= c` for a nullable cell: `false` when the cell is NaN. -/
def cmpGe (x : Option ℚ) (c : ℚ) : Bool :=
  match x with
  | some v => decide (c ≤ v)
  | none => false

/-- `x == c` for a nullable cell: `false` when the cell is NaN. -/
def cmpEq (x : Option ℚ) (c : ℚ) : Bool :=
  match x with
  | some v => decide (v = c)
  | none => false

/-- Scaling an extended value by a positive rational constant (used for the
`* 100` of the percentage): infinities and NaN are preserved. -/
def pscale (c : ℚ) (v : PVal) : PVal :=
  match v with
  | .num q => .num (c * q)
  | x => x

/-- One row of the shapefile: tract id (`CTIDFP00`), county name, and an
abstract geometry tag.  Shapefile fields are never null. -/
structure GeomRow where
  CTIDFP00 : ℕ
  County : String
  geometry : ℕ
deriving DecidableEq, Repr

/-- One row of the food-access CSV, keyed by `CensusTract`; the numeric
fields may be missing in the file itself. -/
structure CsvRow where
  CensusTract : ℕ
  POP2010 : Option ℚ
  Urban : Option ℚ
  Rural : Option ℚ
  lapophalf : Option ℚ
  lapop10 : Option ℚ
  lalowihalf : Option ℚ
  lalowi10 : Option ℚ
deriving DecidableEq, Repr

/-- One row of the merged table produced by `load_in_data`.  Geometry-side
fields are `Option` because the row type also describes arbitrary tables;
tabular fields are null for unmatched tracts.  `low_access` is the column
added in place by `plot_low_access_tracts` (absent before that call). -/
structure Row where
  CTIDFP00 : Option ℕ
  County : Option String
  geometry : Option ℕ
  CensusTract : Option ℕ
  POP2010 : Option ℚ
  Urban : Option ℚ
  Rural : Option ℚ
  lapophalf : Option ℚ
  lapop10 : Option ℚ
  lalowihalf : Option ℚ
  lalowi10 : Option ℚ
  low_access : Option Bool
deriving DecidableEq, Repr

/-- The merged row for a geometry row matched with a CSV row. -/
def attachRow (g : GeomRow) (c : CsvRow) : Row where
  CTIDFP00 := some g.CTIDFP00
  County := some g.County
  geometry := some g.geometry
  CensusTract := some c.CensusTract
  POP2010 := c.POP2010
  Urban := c.Urban
  Rural := c.Rural
  lapophalf := c.lapophalf
  lapop10 := c.lapop10
  lalowihalf := c.lalowihalf
  lalowi10 := c.lalowi10
  low_access := none

/-- The merged row for a geometry row with no CSV match: tabular fields
are null. -/
def unmatchedRow (g : GeomRow) : Row where
  CTIDFP00 := some g.CTIDFP00
  County := some g.County
  geometry := some g.geometry
  CensusTract := none
  POP2010 := none
  Urban := none
  Rural := none
  lapophalf := none
  lapop10 := none
  lalowihalf := none
  lalowi10 := none
  low_access := none

/-- `load_in_data` (main.py lines 12-16): left outer join of the shapefile
rows with the CSV rows on `CTIDFP00 = CensusTract`.  Every geometry row is
kept; each matching CSV row yields one output row, and a geometry row with
no match yields one output row with null tabular fields. -/
def load_in_data (gs : List GeomRow) (cs : List CsvRow) : List Row :=
  gs.flatMap fun g =>
    if (cs.filter fun c => c.CensusTract == g.CTIDFP00).isEmpty then
      [unmatchedRow g]
    else (cs.filter fun c => c.CensusTract == g.CTIDFP00).map (attachRow g)

/-- Count of rows with a non-null `CensusTract` (pandas `Series.count`). -/
def matched_count (t : List Row) : ℕ :=
  (t.filter fun r => r.CensusTract.isSome).length

/-- Count of rows with a non-null `CTIDFP00` (pandas `Series.count`). -/
def geom_count (t : List Row) : ℕ :=
  (t.filter fun r => r.CTIDFP00.isSome).length

/-- `percentage_food_data` (main.py lines 24-26):
`count(CensusTract) / count(CTIDFP00) * 100`, with numpy division
semantics when the denominator is zero. -/
def percentage_food_data (t : List Row) : PVal :=
  pscale 100 (pdiv (some (matched_count t : ℚ)) (some (geom_count t : ℚ)))

/-- `urban_area` (main.py lines 113-115):
`(Urban == 1) & ((lapophalf >= 500) | (lapophalf / POP2010 >= 0.33))`. -/
def urban_area (r : Row) : Bool :=
  cmpEq r.Urban 1 &&
    (cmpGe r.lapophalf 500 || pge (pdiv r.lapophalf r.POP2010) (33 / 100))

/-- `rural_area` (main.py lines 116-118):
`(Rural == 1) & ((lapop10 >= 500) | (lapop10 / POP2010 >= 0.33))`. -/
def rural_area (r : Row) : Bool :=
  cmpEq r.Rural 1 &&
    (cmpGe r.lapop10 500 || pge (pdiv r.lapop10 r.POP2010) (33 / 100))

/-- The value of the `low_access` column (main.py line 120):
`urban_area | rural_area`. -/
def low_access_col (r : Row) : Bool :=
  urban_area r || rural_area r

/-- The in-place update `state_data["low_access"] = urban_area | rural_area`
seen at one row: all other columns are untouched. -/
def classify (r : Row) : Row :=
  { r with low_access := some (low_access_col r) }

/-- The table after `plot_low_access_tracts` has added the `low_access`
column (main.py line 120). -/
def add_low_access (t : List Row) : List Row :=
  t.map classify

/-- `food_access = state_data[state_data["POP2010"].notnull()]`
(main.py line 122). -/
def food_access (t : List Row) : List Row :=
  t.filter fun r => r.POP2010.isSome

/-- `low_access = food_access[food_access["low_access"]]`
(main.py line 123): the subset rendered as the highlight layer. -/
def low_access_rows (t : List Row) : List Row :=
  (food_access t).filter fun r => r.low_access == some true

/-- The sum of one numeric column over the rows of one county, as computed
by `dissolve(by="County", aggfunc="sum")` (main.py lines 59 and 75): pandas
`groupby(...).sum()` skips null cells, so a null cell contributes `0`. -/
def dissolveSum (t : List Row) (col : Row → Option ℚ) (county : String) : ℚ :=
  ((t.filter fun r => r.County == some county).map fun r => (col r).getD 0).sum

/-- A county-level food-access ratio (main.py lines 77-84): the column is
summed per county by the dissolve, then divided by the summed `POP2010`
(counts are summed before the ratio is taken). -/
def county_ratio (t : List Row) (col : Row → Option ℚ) (county : String) : PVal :=
  pdiv (some (dissolveSum t col county)) (some (dissolveSum t (fun r => r.POP2010) county))

/-- The distinct county names appearing in the table.  `groupby` drops rows
whose key is null, so only non-null `County` values form groups. -/
def counties (t : List Row) : List String :=
  (t.filterMap fun r => r.County).dedup

/-- Total population after county aggregation: the aggregated `POP2010`
values summed over all county groups. -/
def county_pop_total (t : List Row) : ℚ :=
  ((counties t).map fun c => dissolveSum t (fun r => r.POP2010) c).sum

/-- Total population over the tracts with non-null `POP2010`. -/
def tract_pop_total (t : List Row) : ℚ :=
  (t.filterMap fun r => r.POP2010).sum

/-- Effect of `plot_map` (main.py lines 29-36) on its input table: the
function only reads the table and draws, so the table is unchanged. -/
def plot_map_effect (t : List Row) : List Row := t

/-- Effect of `plot_population_map` (main.py lines 39-49) on its input
table: read-only, the table is unchanged. -/
def plot_population_map_effect (t : List Row) : List Row := t

/-- Effect of `plot_population_county_map` (main.py lines 52-64) on its
input table: the dissolve builds a new frame bound to the local name
`county`; `state_data` itself is unchanged. -/
def plot_population_county_map_effect (t : List Row) : List Row := t

/-- Effect of `plot_food_access_by_county` (main.py lines 67-103) on its
input table: the ratio columns are added to the local dissolved frame
`ratio_data`, not to `state_data`, so the table is unchanged. -/
def plot_food_access_by_county_effect (t : List Row) : List Row := t

/-- Effect of `plot_low_access_tracts` (main.py lines 106-130) on its
input table: line 120 assigns the `low_access` column in place on
`state_data`, so the caller's table gains that column. -/
def plot_low_access_tracts_effect (t : List Row) : List Row :=
  add_low_access t

/-- A row with its `low_access` cell cleared; two rows agree on every
pre-existing column exactly when their cleared forms are equal. -/
def clearLowAccess (r : Row) : Row :=
  { r with low_access := none }

/-- The four axes of the 2x2 figure of `plot_food_access_by_county`,
`fig, [[ax1, ax2], [ax3, ax4]] = plt.subplots(2, 2, ...)` (line 86). -/
inductive Axis where
  | ax1 : Axis
  | ax2 : Axis
  | ax3 : Axis
  | ax4 : Axis
deriving DecidableEq, Repr

/-- The ratio column plotted on each axis (main.py lines 88-101):
`ax1 <- lapophalf_ratio`, `ax3 <- lapop10_ratio`, `ax2 <- lalowihalf_ratio`,
`ax4 <- lalowi10_ratio`. -/
def panel_column : Axis → String
  | .ax1 => "lapophalf_ratio"
  | .ax2 => "lalowihalf_ratio"
  | .ax3 => "lapop10_ratio"
  | .ax4 => "lalowi10_ratio"

/-- The title set on each axis (main.py lines 90, 94, 98, 102). -/
def panel_title : Axis → String
  | .ax1 => "Low Access: Half"
  | .ax2 => "Low Access + Low Income: Half"
  | .ax3 => "Low Access: 10"
  | .ax4 => "Low Access + Low Income: 10"

/-- The column-to-title correspondence asserted by the specification:
`lapophalf_ratio` belongs with "Low Access: Half", `lapop10_ratio` with
"Low Access: 10", `lalowihalf_ratio` with "Low Access + Low Income: Half",
`lalowi10_ratio` with "Low Access + Low Income: 10". -/
def expected_title (column : String) : String :=
  if column = "lapophalf_ratio" then "Low Access: Half"
  else if column = "lapop10_ratio" then "Low Access: 10"
  else if column = "lalowihalf_ratio" then "Low Access + Low Income: Half"
  else if column = "lalowi10_ratio" then "Low Access + Low Income: 10"
  else ""

/-- C1: for every row of the merged table whose `Urban`, `Rural`,
`POP2010`, `lapophalf` and `lapop10` cells are non-null and whose
population is nonzero (so that every comparison and the divisions in the
rule are well defined), the classifier sets `low_access` to `true` if and
only if `(Urban = 1 and (lapophalf >= 500 or lapophalf / POP2010 >= 0.33))
or (Rural = 1 and (lapop10 >= 500 or lapop10 / POP2010 >= 0.33))`. -/
theorem low_access_iff_rule (r : Row) (u v p lh l10 : ℚ)
    (hU : r.Urban = some u) (hR : r.Rural = some v)
    (hP : r.POP2010 = some p) (hLH : r.lapophalf = some lh)
    (hL10 : r.lapop10 = some l10) (hp : p ≠ 0) :
    low_access_col r = true ↔
      ((u = 1 ∧ (500 ≤ lh ∨ 33 / 100 ≤ lh / p)) ∨
       (v = 1 ∧ (500 ≤ l10 ∨ 33 / 100 ≤ l10 / p))) := by
  simp [low_access_col, urban_area, rural_area, cmpEq, cmpGe, pdiv, pge,
    hU, hR, hP, hLH, hL10, hp]

/-- Witness for C1: the `Urban=1, population=1000, lapophalf=400` scenario
from the specification is classified low access (ratio `0.4 >= 0.33`). -/
theorem low_access_iff_rule_witness :
    low_access_col
        ⟨some 1, some "King", some 7, some 1, some 1000, some 1, some 0,
          some 400, some 0, some 0, some 0, none⟩ = true ↔
      (((1 : ℚ) = 1 ∧ ((500 : ℚ) ≤ 400 ∨ (33 / 100 : ℚ) ≤ 400 / 1000)) ∨
       ((0 : ℚ) = 1 ∧ ((500 : ℚ) ≤ 0 ∨ (33 / 100 : ℚ) ≤ 0 / 1000))) :=
  low_access_iff_rule
    ⟨some 1, some "King", some 7, some 1, some 1000, some 1, some 0,
      some 400, some 0, some 0, some 0, none⟩
    1 0 1000 400 0 rfl rfl rfl rfl rfl (by norm_num)

/-- C10: a row whose `Urban` cell is not the number 1 and whose `Rural`
cell is not the number 1 (including null flags) is never classified low
access, whatever its counts and ratios are. -/
theorem low_access_false_of_flags (r : Row)
    (hU : r.Urban ≠ some 1) (hR : r.Rural ≠ some 1) :
    low_access_col r = false := by
  have hu : cmpEq r.Urban 1 = false := by
    unfold cmpEq
    cases h : r.Urban with
    | none => rfl
    | some w =>
        simp only [decide_eq_false_iff_not]
        intro hw
        exact hU (by rw [h, hw])
  have hv : cmpEq r.Rural 1 = false := by
    unfold cmpEq
    cases h : r.Rural with
    | none => rfl
    | some w =>
        simp only [decide_eq_false_iff_not]
        intro hw
        exact hR (by rw [h, hw])
  simp [low_access_col, urban_area, rural_area, hu, hv]

/-- Witness for C10: a row with `Urban` null, `Rural = 0` and an enormous
`lapophalf` count is still not low access. -/
theorem low_access_false_of_flags_witness :
    low_access_col
        ⟨some 2, some "King", some 8, some 2, some 10, none, some 0,
          some 100000, some 100000, some 0, some 0, none⟩ = false :=
  low_access_false_of_flags
    ⟨some 2, some "King", some 8, some 2, some 10, none, some 0,
      some 100000, some 100000, some 0, some 0, none⟩
    (by simp) (by simp)

/-- Counterexample to C9: no panel of the four-panel figure has a title
that differs from the title the claimed column-to-title mapping expects,
so "for at least one panel the title does not correspond" is false. -/
theorem panel_titles_all_match_cex :
    ¬ ∃ a : Axis, panel_title a ≠ expected_title (panel_column a) := by
  intro h
  obtain ⟨a, ha⟩ := h
  cases a <;> exact ha rfl

/-- C9 amended: the title-setting statements are interleaved with the plot
statements in source order, but every axis receives exactly the title that
corresponds to the ratio column plotted on it. -/
theorem panel_titles_match (a : Axis) :
    panel_title a = expected_title (panel_column a) := by
  cases a <;> rfl

/-- Counterexample to C8: `plot_low_access_tracts` does not leave the
merged input table unchanged — it adds the `low_access` column in place,
so a table whose rows lack that column differs after the call. -/
theorem plot_low_access_mutates_cex :
    plot_low_access_tracts_effect
        [⟨some 3, some "King", some 9, some 3, some 50, some 1, some 0,
          some 600, some 0, some 0, some 0, none⟩] ≠
      [⟨some 3, some "King", some 9, some 3, some 50, some 1, some 0,
        some 600, some 0, some 0, some 0, none⟩] := by
  decide

/-- C8 amended: four of the five rendering routines leave the merged
table exactly unchanged; `plot_low_access_tracts` adds the `low_access`
column in place but changes no pre-existing column, so modulo that column
all five calls leave the table unchanged. -/
theorem render_effects_preserve_table (t : List Row) :
    plot_map_effect t = t ∧
    plot_population_map_effect t = t ∧
    plot_population_county_map_effect t = t ∧
    plot_food_access_by_county_effect t = t ∧
    (plot_low_access_tracts_effect t).map clearLowAccess =
      t.map clearLowAccess := by
  refine ⟨rfl, rfl, rfl, rfl, ?_⟩
  unfold plot_low_access_tracts_effect add_low_access
  rw [List.map_map]
  rfl

/-- Counterexample to C2: a row with `POP2010 = 0`, `Urban = 1` and
`lapophalf = 100` has both absolute-count clauses false (`100 < 500`,
`0 < 500`), yet it is classified low access: `100 / 0` is `+∞` under
numpy semantics and `+∞ >= 0.33` holds, so the ratio clause of a
zero-population row is not treated as false. -/
theorem zero_population_ratio_cex :
    (⟨some 4, some "King", some 10, some 4, some 0, some 1, some 0,
        some 100, some 0, some 0, some 0, none⟩ : Row).POP2010 = some 0 ∧
    cmpGe (⟨some 4, some "King", some 10, some 4, some 0, some 1, some 0,
        some 100, some 0, some 0, some 0, none⟩ : Row).lapophalf 500 = false ∧
    cmpGe (⟨some 4, some "King", some 10, some 4, some 0, some 1, some 0,
        some 100, some 0, some 0, some 0, none⟩ : Row).lapop10 500 = false ∧
    low_access_col
        ⟨some 4, some "King", some 10, some 4, some 0, some 1, some 0,
          some 100, some 0, some 0, some 0, none⟩ = true := by
  refine ⟨rfl, ?_, ?_, ?_⟩ <;> decide

/-- C2 amended: for every row whose `POP2010` is null, both ratio clauses
evaluate to false (NaN comparisons are false), so such a row is classified
low access exactly when a flag matches and the corresponding
absolute-count clause holds.  (For a zero — rather than null — population
the division yields `+∞` when the count is positive, and the ratio clause
then holds, so the claim's "or zero" part fails; see the counterexample.) -/
theorem null_population_ratio_false (r : Row) (h : r.POP2010 = none) :
    pge (pdiv r.lapophalf r.POP2010) (33 / 100) = false ∧
    pge (pdiv r.lapop10 r.POP2010) (33 / 100) = false ∧
    (low_access_col r = true ↔
      (cmpEq r.Urban 1 = true ∧ cmpGe r.lapophalf 500 = true) ∨
      (cmpEq r.Rural 1 = true ∧ cmpGe r.lapop10 500 = true)) := by
  have h1 : pge (pdiv r.lapophalf r.POP2010) (33 / 100) = false := by
    cases hx : r.lapophalf <;> simp [pdiv, pge, h, hx]
  have h2 : pge (pdiv r.lapop10 r.POP2010) (33 / 100) = false := by
    cases hx : r.lapop10 <;> simp [pdiv, pge, h, hx]
  refine ⟨h1, h2, ?_⟩
  simp [low_access_col, urban_area, rural_area, h1, h2]

/-- Witness for C2 amended: the specification's null-population scenario
(`population = None, lapophalf = 600, Urban = 1`): the ratio clauses are
false and the row is low access purely through `600 >= 500`. -/
theorem null_population_ratio_false_witness :
    pge (pdiv (⟨some 5, some "King", some 11, some 5, none, some 1, some 0,
        some 600, some 0, some 0, some 0, none⟩ : Row).lapophalf
        (⟨some 5, some "King", some 11, some 5, none, some 1, some 0,
        some 600, some 0, some 0, some 0, none⟩ : Row).POP2010)
      (33 / 100) = false ∧
    pge (pdiv (⟨some 5, some "King", some 11, some 5, none, some 1, some 0,
        some 600, some 0, some 0, some 0, none⟩ : Row).lapop10
        (⟨some 5, some "King", some 11, some 5, none, some 1, some 0,
        some 600, some 0, some 0, some 0, none⟩ : Row).POP2010)
      (33 / 100) = false ∧
    (low_access_col
        ⟨some 5, some "King", some 11, some 5, none, some 1, some 0,
          some 600, some 0, some 0, some 0, none⟩ = true ↔
      (cmpEq (⟨some 5, some "King", some 11, some 5, none, some 1, some 0,
          some 600, some 0, some 0, some 0, none⟩ : Row).Urban 1 = true ∧
        cmpGe (⟨some 5, some "King", some 11, some 5, none, some 1, some 0,
          some 600, some 0, some 0, some 0, none⟩ : Row).lapophalf 500 = true) ∨
      (cmpEq (⟨some 5, some "King", some 11, some 5, none, some 1, some 0,
          some 600, some 0, some 0, some 0, none⟩ : Row).Rural 1 = true ∧
        cmpGe (⟨some 5, some "King", some 11, some 5, none, some 1, some 0,
          some 600, some 0, some 0, some 0, none⟩ : Row).lapop10 500 = true)) :=
  null_population_ratio_false
    ⟨some 5, some "King", some 11, some 5, none, some 1, some 0,
      some 600, some 0, some 0, some 0, none⟩ rfl

/-- C3: a row whose `POP2010` is null is never an element of the
food-access subset (`POP2010` not null) nor of the low-access rendering
subset, whatever its `low_access` cell holds and whatever table is
filtered. -/
theorem null_population_excluded (t : List Row) (r : Row)
    (h : r.POP2010 = none) :
    r ∉ food_access t ∧ r ∉ low_access_rows t := by
  have hfa : r ∉ food_access t := by
    intro hm
    have hp := (List.mem_filter.mp hm).2
    simp [h] at hp
  refine ⟨hfa, ?_⟩
  intro hm
  exact hfa (List.mem_of_mem_filter hm)

/-- Witness for C3: a null-population row marked `low_access = true` is in
neither subset of a table containing it. -/
theorem null_population_excluded_witness :
    (⟨some 6, some "King", some 12, none, none, none, none, none, none,
        none, none, some true⟩ : Row) ∉
      food_access
        [⟨some 6, some "King", some 12, none, none, none, none, none, none,
          none, none, some true⟩] ∧
    (⟨some 6, some "King", some 12, none, none, none, none, none, none,
        none, none, some true⟩ : Row) ∉
      low_access_rows
        [⟨some 6, some "King", some 12, none, none, none, none, none, none,
          none, none, some true⟩] :=
  null_population_excluded
    [⟨some 6, some "King", some 12, none, none, none, none, none, none,
      none, none, some true⟩]
    ⟨some 6, some "King", some 12, none, none, none, none, none, none,
      none, none, some true⟩ rfl

/-- Every row produced by the left join carries a geometry key. -/
theorem load_ctid_isSome (gs : List GeomRow) (cs : List CsvRow) :
    ∀ r ∈ load_in_data gs cs, r.CTIDFP00.isSome := by
  intro r hr
  rw [load_in_data, List.mem_flatMap] at hr
  obtain ⟨g, hg, hr⟩ := hr
  split at hr
  · rw [List.mem_singleton] at hr
    subst hr
    rfl
  · rw [List.mem_map] at hr
    obtain ⟨c, hc, rfl⟩ := hr
    rfl

/-- The left join of a nonempty geometry table is nonempty. -/
theorem load_ne_nil (gs : List GeomRow) (cs : List CsvRow) (h : gs ≠ []) :
    load_in_data gs cs ≠ [] := by
  cases gs with
  | nil => exact absurd rfl h
  | cons g gs2 =>
      rw [load_in_data, List.flatMap_cons]
      intro hcontra
      rcases List.append_eq_nil.mp hcontra with ⟨h1, _⟩
      revert h1
      split
      · exact fun h1 => List.cons_ne_nil _ _ h1
      · next hne =>
          intro h1
          rw [List.map_eq_nil_iff] at h1
          exact hne (by rw [h1]; rfl)

/-- C4: the match-rate metric of a merged table equals
`100 * count(CensusTract) / count(CTIDFP00)`, and on any table produced by
the left join of a nonempty geometry table with unique keys on both sides
it is a finite value in the interval `[0, 100]`. -/
theorem percentage_food_data_in_range (gs : List GeomRow) (cs : List CsvRow)
    (hne : gs ≠ [])
    (hg : (gs.map fun g => g.CTIDFP00).Nodup)
    (hc : (cs.map fun c => c.CensusTract).Nodup) :
    ∃ q : ℚ,
      percentage_food_data (load_in_data gs cs) = PVal.num q ∧
      q = 100 * (matched_count (load_in_data gs cs) : ℚ) /
            (geom_count (load_in_data gs cs) : ℚ) ∧
      0 ≤ q ∧ q ≤ 100 := by
  set t := load_in_data gs cs with ht
  have hfil : t.filter (fun r => r.CTIDFP00.isSome) = t :=
    List.filter_eq_self.mpr fun r hr => load_ctid_isSome gs cs r hr
  have hgeq : geom_count t = t.length := by rw [geom_count, hfil]
  have hpos : 0 < geom_count t := by
    rw [hgeq]
    exact List.length_pos.mpr (load_ne_nil gs cs hne)
  have hle : matched_count t ≤ geom_count t := by
    rw [hgeq]
    exact List.length_filter_le _ t
  have hposQ : (0 : ℚ) < (geom_count t : ℚ) := by exact_mod_cast hpos
  have hq0 : ((geom_count t : ℚ)) ≠ 0 := ne_of_gt hposQ
  refine ⟨100 * (matched_count t : ℚ) / (geom_count t : ℚ), ?_, rfl, ?_, ?_⟩
  · rw [percentage_food_data, pdiv]
    simp only [hq0, if_false]
    rw [pscale, mul_div_assoc]
  · positivity
  · rw [div_le_iff₀ hposQ]
    have hleQ : (matched_count t : ℚ) ≤ (geom_count t : ℚ) := by
      exact_mod_cast hle
    nlinarith [hleQ]

/-- Witness for C4: a one-tract geometry table joined with its matching
CSV row gives a finite match rate within bounds (here `100`). -/
theorem percentage_food_data_in_range_witness :
    ∃ q : ℚ,
      percentage_food_data
          (load_in_data [⟨530001, "King", 0⟩]
            [⟨530001, some 100, some 1, some 0, some 40, some 0, some 0,
              some 0⟩]) = PVal.num q ∧
      q = 100 *
            (matched_count
              (load_in_data [⟨530001, "King", 0⟩]
                [⟨530001, some 100, some 1, some 0, some 40, some 0,
                  some 0, some 0⟩]) : ℚ) /
            (geom_count
              (load_in_data [⟨530001, "King", 0⟩]
                [⟨530001, some 100, some 1, some 0, some 40, some 0,
                  some 0, some 0⟩]) : ℚ) ∧
      0 ≤ q ∧ q ≤ 100 :=
  percentage_food_data_in_range [⟨530001, "King", 0⟩]
    [⟨530001, some 100, some 1, some 0, some 40, some 0, some 0, some 0⟩]
    (by decide) (by decide) (by decide)

/-- C5: the loader performs a left outer join — every geometry row appears
in the output: with no CSV match it appears as the row with null tabular
fields, and every CSV row whose key matches it appears attached to it. -/
theorem load_in_data_left_join (gs : List GeomRow) (cs : List CsvRow) :
    ∀ g ∈ gs,
      ((∀ c ∈ cs, c.CensusTract ≠ g.CTIDFP00) →
        unmatchedRow g ∈ load_in_data gs cs) ∧
      (∀ c ∈ cs, c.CensusTract = g.CTIDFP00 →
        attachRow g c ∈ load_in_data gs cs) := by
  intro g hg
  constructor
  · intro hnone
    have hf : cs.filter (fun c => c.CensusTract == g.CTIDFP00) = [] := by
      rw [List.filter_eq_nil_iff]
      intro c hc
      simp only [beq_iff_eq]
      exact hnone c hc
    rw [load_in_data, List.mem_flatMap]
    refine ⟨g, hg, ?_⟩
    rw [hf]
    simp
  · intro c hc hkey
    rw [load_in_data, List.mem_flatMap]
    refine ⟨g, hg, ?_⟩
    have hcf : c ∈ cs.filter (fun c2 => c2.CensusTract == g.CTIDFP00) :=
      List.mem_filter.mpr ⟨hc, by simp [hkey]⟩
    have hnemp : ¬ (cs.filter fun c2 => c2.CensusTract == g.CTIDFP00).isEmpty := by
      intro he
      rw [List.isEmpty_iff] at he
      rw [he] at hcf
      exact absurd hcf (List.not_mem_nil c)
    rw [if_neg hnemp]
    exact List.mem_map_of_mem (attachRow g) hcf

/-- Witness for C5: with two geometry rows and one CSV row keyed to the
second, the first survives as an unmatched (null-field) row and the second
carries the attached CSV fields. -/
theorem load_in_data_left_join_witness :
    unmatchedRow ⟨100, "A", 0⟩ ∈
      load_in_data [⟨100, "A", 0⟩, ⟨200, "B", 1⟩]
        [⟨200, some 10, some 1, some 0, some 1, some 1, some 1, some 1⟩] ∧
    attachRow ⟨200, "B", 1⟩
        ⟨200, some 10, some 1, some 0, some 1, some 1, some 1, some 1⟩ ∈
      load_in_data [⟨100, "A", 0⟩, ⟨200, "B", 1⟩]
        [⟨200, some 10, some 1, some 0, some 1, some 1, some 1, some 1⟩] :=
  ⟨(load_in_data_left_join [⟨100, "A", 0⟩, ⟨200, "B", 1⟩]
      [⟨200, some 10, some 1, some 0, some 1, some 1, some 1, some 1⟩]
      ⟨100, "A", 0⟩ (by decide)).1 (by decide),
   (load_in_data_left_join [⟨100, "A", 0⟩, ⟨200, "B", 1⟩]
      [⟨200, some 10, some 1, some 0, some 1, some 1, some 1, some 1⟩]
      ⟨200, "B", 1⟩ (by decide)).2
     ⟨200, some 10, some 1, some 0, some 1, some 1, some 1, some 1⟩
     (by decide) rfl⟩

/-- Counterexample to C6: a county with two tracts of unequal population
(1000 and 2000) whose tract-level ratios happen to be equal
(`100/1000 = 200/2000`): the county ratio `sum/sum = 300/3000` DOES equal
the mean of the two tract-level ratios, so "unequal population implies the
two quantities differ" is false. -/
theorem county_ratio_equals_mean_cex :
    (⟨some 7, some "A", some 1, some 7, some 1000, none, none, some 100,
        none, none, none, none⟩ : Row).POP2010 = some 1000 ∧
    (⟨some 8, some "A", some 2, some 8, some 2000, none, none, some 200,
        none, none, none, none⟩ : Row).POP2010 = some 2000 ∧
    (1000 : ℚ) ≠ 2000 ∧
    county_ratio
        [⟨some 7, some "A", some 1, some 7, some 1000, none, none, some 100,
          none, none, none, none⟩,
         ⟨some 8, some "A", some 2, some 8, some 2000, none, none, some 200,
          none, none, none, none⟩]
        (fun r => r.lapophalf) "A" =
      PVal.num ((100 / 1000 + 200 / 2000) / 2) := by
  refine ⟨rfl, rfl, by norm_num, ?_⟩
  norm_num [county_ratio, dissolveSum, pdiv]

/-- C6 amended: county-level ratios are computed by summing the access
count and the population per county and then dividing the sums; for a
county of two tracts with unequal positive populations AND unequal
tract-level ratios, `sum(count)/sum(population)` differs from the mean of
the two tract-level ratios (with equal tract ratios the two coincide even
for unequal populations). -/
theorem county_ratio_sum_then_divide (r1 r2 : Row) (cn : String)
    (p1 p2 c1 c2 : ℚ)
    (h1c : r1.County = some cn) (h2c : r2.County = some cn)
    (h1p : r1.POP2010 = some p1) (h2p : r2.POP2010 = some p2)
    (h1l : r1.lapophalf = some c1) (h2l : r2.lapophalf = some c2)
    (hp1 : 0 < p1) (hp2 : 0 < p2) (hne : p1 ≠ p2)
    (hratio : c1 / p1 ≠ c2 / p2) :
    county_ratio [r1, r2] (fun r => r.lapophalf) cn =
      PVal.num ((c1 + c2) / (p1 + p2)) ∧
    (c1 + c2) / (p1 + p2) ≠ (c1 / p1 + c2 / p2) / 2 := by
  have hps : (0 : ℚ) < p1 + p2 := by linarith
  have hsum : dissolveSum [r1, r2] (fun r => r.lapophalf) cn = c1 + c2 := by
    simp [dissolveSum, h1c, h2c, h1l, h2l]
  have hpop : dissolveSum [r1, r2] (fun r => r.POP2010) cn = p1 + p2 := by
    simp [dissolveSum, h1c, h2c, h1p, h2p]
  constructor
  · rw [county_ratio, hsum, hpop, pdiv]
    rw [if_neg (ne_of_gt hps)]
  · intro heq
    apply hratio
    have hp1' : p1 ≠ 0 := ne_of_gt hp1
    have hp2' : p2 ≠ 0 := ne_of_gt hp2
    have hps' : p1 + p2 ≠ 0 := ne_of_gt hps
    have key : (p1 - p2) * (c1 * p2 - c2 * p1) = 0 := by
      field_simp at heq
      linear_combination heq
    rcases mul_eq_zero.mp key with hk | hk
    · exact absurd (by linarith) hne
    · rw [div_eq_div_iff hp1' hp2']
      linarith

/-- Witness for C6 amended: tracts with populations 1000 and 2000 and
counts 400 and 100 give a county ratio `500/3000 = 1/6`, distinct from the
mean `(0.4 + 0.05)/2 = 0.225` of the tract ratios. -/
theorem county_ratio_sum_then_divide_witness :
    county_ratio
        [⟨some 9, some "B", some 3, some 9, some 1000, none, none, some 400,
          none, none, none, none⟩,
         ⟨some 10, some "B", some 4, some 10, some 2000, none, none,
          some 100, none, none, none, none⟩]
        (fun r => r.lapophalf) "B" =
      PVal.num (((400 : ℚ) + 100) / (1000 + 2000)) ∧
    ((400 : ℚ) + 100) / (1000 + 2000) ≠
      ((400 : ℚ) / 1000 + 100 / 2000) / 2 :=
  county_ratio_sum_then_divide
    ⟨some 9, some "B", some 3, some 9, some 1000, none, none, some 400,
      none, none, none, none⟩
    ⟨some 10, some "B", some 4, some 10, some 2000, none, none, some 100,
      none, none, none, none⟩
    "B" 1000 2000 400 100 rfl rfl rfl rfl rfl rfl
    (by norm_num) (by norm_num) (by norm_num) (by norm_num)

/-- Splitting a mapped sum along a Boolean predicate on the rows. -/
theorem sum_map_filter_not (p : Row → Bool) (v : Row → ℚ) (t : List Row) :
    ((t.filter p).map v).sum + ((t.filter fun r => ! p r).map v).sum
      = (t.map v).sum := by
  induction t with
  | nil => simp
  | cons r rs ih =>
      by_cases h : p r
      · simp [List.filter_cons, h]
        linarith
      · simp [List.filter_cons, h]
        linarith

/-- Summing a column county-group by county-group over a duplicate-free
list of keys that covers every row gives the plain column sum. -/
theorem sum_grouped (v : Row → ℚ) :
    ∀ (keys : List String) (t : List Row),
      (∀ r ∈ t, ∃ c, r.County = some c ∧ c ∈ keys) → keys.Nodup →
      (keys.map fun c =>
          ((t.filter fun r => r.County == some c).map v).sum).sum
        = (t.map v).sum := by
  intro keys
  induction keys with
  | nil =>
      intro t hcov _
      cases t with
      | nil => simp
      | cons r rs =>
          obtain ⟨c, _, hc⟩ := hcov r (List.mem_cons_self r rs)
          exact absurd hc (List.not_mem_nil c)
  | cons b bs ih =>
      intro t hcov hnd
      simp only [List.map_cons, List.sum_cons]
      have hcong :
          (bs.map fun c => ((t.filter fun r => r.County == some c).map v).sum)
            = (bs.map fun c =>
                (((t.filter fun r => ! (r.County == some b)).filter
                    fun r => r.County == some c).map v).sum) := by
        apply List.map_congr_left
        intro c hc
        have hcb : c ≠ b := by
          intro h
          exact (List.nodup_cons.mp hnd).1 (h ▸ hc)
        rw [List.filter_filter]
        have hfeq :
            (t.filter fun a =>
                (a.County == some c) && ! (a.County == some b))
              = t.filter fun r => r.County == some c := by
          apply List.filter_congr
          intro r hr
          cases hrc : (r.County == some c) with
          | false => simp [hrc]
          | true =>
              have hceq : r.County = some c := eq_of_beq hrc
              have hb : (r.County == some b) = false := by
                rw [hceq]
                simp [hcb]
              simp [hb]
        rw [hfeq]
      rw [hcong]
      have hcov2 : ∀ r ∈ (t.filter fun r => ! (r.County == some b)),
          ∃ c, r.County = some c ∧ c ∈ bs := by
        intro r hr
        obtain ⟨hrt, hnb⟩ := List.mem_filter.mp hr
        obtain ⟨c, hcc, hcm⟩ := hcov r hrt
        refine ⟨c, hcc, ?_⟩
        rcases List.mem_cons.mp hcm with hcb | hbs
        · exfalso
          rw [hcb] at hcc
          rw [hcc] at hnb
          simp at hnb
        · exact hbs
      rw [ih (t.filter fun r => ! (r.County == some b)) hcov2
        (List.nodup_cons.mp hnd).2]
      exact sum_map_filter_not (fun r => r.County == some b) v t

/-- Replacing a null population by `0` in a plain sum equals summing only
the non-null populations. -/
theorem sum_map_getD_pop (t : List Row) :
    (t.map fun r => (r.POP2010).getD 0).sum
      = (t.filterMap fun r => r.POP2010).sum := by
  induction t with
  | nil => simp
  | cons r rs ih =>
      cases h : r.POP2010 with
      | none => simp [h, ih]
      | some q => simp [h, ih]

/-- C7: on a merged table in which every row carries a county name, the
county-aggregated populations sum to the total population of the tracts
with non-null population: summing by county preserves the total. -/
theorem county_pop_total_eq_tract_total (t : List Row)
    (h : ∀ r ∈ t, (r.County).isSome) :
    county_pop_total t = tract_pop_total t := by
  have hcov : ∀ r ∈ t, ∃ c, r.County = some c ∧
      c ∈ (t.filterMap fun r2 => r2.County).dedup := by
    intro r hr
    obtain ⟨c, hc⟩ := Option.isSome_iff_exists.mp (h r hr)
    exact ⟨c, hc, List.mem_dedup.mpr (List.mem_filterMap.mpr ⟨r, hr, hc⟩)⟩
  rw [county_pop_total, counties]
  simp only [dissolveSum]
  rw [sum_grouped (fun r => (r.POP2010).getD 0)
    ((t.filterMap fun r2 => r2.County).dedup) t hcov (List.nodup_dedup _)]
  rw [tract_pop_total]
  exact sum_map_getD_pop t

/-- Witness for C7: a three-row table over two counties, one row with a
null population; both totals are `30`. -/
theorem county_pop_total_eq_tract_total_witness :
    county_pop_total
        [⟨some 11, some "A", some 5, some 11, some 10, none, none, none,
          none, none, none, none⟩,
         ⟨some 12, some "B", some 6, some 12, some 20, none, none, none,
          none, none, none, none⟩,
         ⟨some 13, some "A", some 7, none, none, none, none, none, none,
          none, none, none⟩] =
      tract_pop_total
        [⟨some 11, some "A", some 5, some 11, some 10, none, none, none,
          none, none, none, none⟩,
         ⟨some 12, some "B", some 6, some 12, some 20, none, none, none,
          none, none, none, none⟩,
         ⟨some 13, some "A", some 7, none, none, none, none, none, none,
          none, none, none⟩] :=
  county_pop_total_eq_tract_total
    [⟨some 11, some "A", some 5, some 11, some 10, none, none, none,
      none, none, none, none⟩,
     ⟨some 12, some "B", some 6, some 12, some 20, none, none, none,
      none, none, none, none⟩,
     ⟨some 13, some "A", some 7, none, none, none, none, none, none,
      none, none, none⟩]
    (by decide)

end Mapping
